import Mathlib

/-!
Verification development for the iTracker pupil-detection core
(`src/PupilTracker.cpp`, `src/PupilTracker.h`).

The pipeline stages implemented inside the repository (region-of-interest
masking, histogram spike scan, contour-size relaxation loop, contour merge,
result-state update, accessors, constructor) are embedded as executable Lean
definitions.  OpenCV library routines that the repository merely calls
(cvtColor/normalize, inRange, dilate, erode, blur, Canny, findContours,
fitEllipse, drawContours) are kept abstract as fields of a `CVOps` record of
deterministic functions; `cv::min` (pixel-wise minimum) and
`Mat::copyTo` with a mask (copy where mask nonzero, zero elsewhere on a
freshly allocated destination) are concrete enough to embed directly.
-/

namespace ITracker

/-- An image is a flat list of 8-bit channel samples (row-major); all the
pixel-level reasoning in the claims is channel-wise, so a flat list of
intensities suffices. -/
abbrev Image := List Nat

/-- A contour point, `cv::Point` (integer coordinates). -/
abbrev Point := Int × Int

/-- Model of `cv::RotatedRect` (used for the fitted ellipse).  Its default
constructor value-initializes: center (0,0), size (0,0), angle 0.  Float
components are modelled as rationals; the claims never compute with them. -/
structure RotatedRect where
  center : ℚ × ℚ
  size : ℚ × ℚ
  angle : ℚ
deriving DecidableEq

/-! ## Preprocessor, PupilTracker.cpp lines 47-69 -/

/-- Model of `invertedImage.copyTo(masked, maskImage)` where `masked` is a
freshly declared `cv::Mat`: OpenCV zero-initializes a newly allocated
destination before a masked copy, so the result holds the source value where
the mask is nonzero and 0 elsewhere. -/
def copyToMasked (src mask : Image) : Image :=
  List.zipWith (fun s m => if m ≠ 0 then s else 0) src mask

/-- Model of lines 48-65: `bitwise_not(eyeImage, invertedImage)` (per 8-bit
channel, `~v = 255 - v`), masked copy, and `bitwise_not(masked, imageIn)`. -/
def applyMaskStage (eye mask : Image) : Image :=
  (copyToMasked (eye.map (fun v => 255 - v)) mask).map (fun v => 255 - v)

/-- Lines 47-69 as a whole: if a mask image exists it is applied, otherwise
`imageIn = eyeImage` unchanged. -/
def preprocessInput : Option Image → Image → Image
  | some mask, eye => applyMaskStage eye mask
  | none, eye => eye

/-! ## Histogram and spike scan, PupilTracker.cpp lines 84-118 -/

/-- Modelled from the spec: `cv::calcHist` is an external OpenCV routine; per
the spec (Data Model, "Histogram") bucket `v` holds the number of occurrences
of intensity `v` in the working image. -/
def histCount (img : Image) (v : Nat) : Nat :=
  (img.filter (fun x => x == v)).length

/-- Floor of the base-2 logarithm for `1 ≤ n < 2^64`, written with a bounded
scan so that it evaluates by kernel reduction. -/
def floorLog2 (n : Nat) : Nat :=
  ((List.range 64).filter (fun e => 2 ^ e ≤ n)).length - 1

/-- IEEE-754 binary32 bit pattern of the natural number `n` (sign 0, biased
exponent, 23-bit mantissa).  Exact for `n < 2 ^ 24`, which covers every
histogram count appearing in the theorems below; `cv::calcHist` stores its
counts as CV_32F floats. -/
def float32bits (n : Nat) : Nat :=
  if n = 0 then 0
  else (floorLog2 n + 127) * 2 ^ 23 + (n * 2 ^ 23 / 2 ^ floorLog2 n - 2 ^ 23)

/-- Model of `hist.at<uchar>(0, i)` at line 100: the histogram returned by
`cv::calcHist` is a 256x1 CV_32F matrix, so reading it with `at<uchar>(0, i)`
yields byte `i` of the underlying float buffer, i.e. byte `i % 4`
(little-endian) of the binary32 encoding of the count of bucket `i / 4`. -/
def histByteAt (img : Image) (i : Nat) : Nat :=
  float32bits (histCount img (i / 4)) / 2 ^ (8 * (i % 4)) % 256

/-- Accumulator of the spike-scan loop, lines 94-96: `lowestSpike` starts at
`rangeMax = 255`, `highestSpike` at `rangeMin = 0`, `numSpikes` at 0. -/
structure SpikeScan where
  lowestSpike : Nat
  highestSpike : Nat
  numSpikes : Nat
deriving DecidableEq

/-- Body of the scan loop, lines 99-111: a bucket whose read value is at
least `minSpikeSize = 40` counts as a spike and updates the extremes. -/
def spikeScanStep (b : Nat) (i : Nat) (s : SpikeScan) : SpikeScan :=
  if 40 ≤ b then
    { lowestSpike := if i < s.lowestSpike then i else s.lowestSpike,
      highestSpike := if s.highestSpike < i then i else s.highestSpike,
      numSpikes := s.numSpikes + 1 }
  else s

/-- The scan loop over `i = 0 .. 255`, lines 97-112, parameterized by the
per-index read so the same loop can be run on the byte reads the code
performs. -/
def spikeScanLoop (byteAt : Nat → Nat) : SpikeScan :=
  (List.range 256).foldl (fun s i => spikeScanStep (byteAt i) i s) ⟨255, 0, 0⟩

/-- Lines 113-118: with fewer than 2 spikes the defaults `(0, 255)` are
assigned, otherwise the scanned extremes stand. -/
def spikeFallback (s : SpikeScan) : Nat × Nat :=
  if s.numSpikes < 2 then (0, 255) else (s.lowestSpike, s.highestSpike)

/-- The whole threshold-estimation stage, lines 84-118, as the code executes
it (reading the CV_32F histogram through `at<uchar>`). -/
def estimateThresholds (img : Image) : Nat × Nat :=
  spikeFallback (spikeScanLoop (histByteAt img))

/-- The spike buckets as the spec defines them: buckets whose pixel count is
at least 40. -/
def specSpikeBuckets (img : Image) : List Nat :=
  (List.range 256).filter (fun i => decide (40 ≤ histCount img i))

/-! ## Contour-size relaxation loop, PupilTracker.cpp lines 185-206 -/

/-- The comparison `contours.at(i).size() < m_min_contour_size -
relaxContourMerge` at line 193: `size()` is a 64-bit `size_t`, the right-hand
side an `int`, so the `int` is converted to `size_t` (two's complement, i.e.
reduction mod `2 ^ 64`) and the comparison is unsigned. -/
def cppSizeLt (sz : Nat) (t : Int) : Bool :=
  decide (((sz % 2 ^ 64 : Nat) : Int) < t % (2 ^ 64 : Int))

/-- The loop state, lines 185-187: the `contourMergeable` flag vector, the
`retryContourMerge` flag and the running relaxation amount. -/
structure RelaxState where
  contourMergeable : List Bool
  retryContourMerge : Bool
  relaxContourMerge : Int
deriving DecidableEq

/-- One pass of the while-loop body, lines 190-205: every flag is rewritten
(`false` for a contour below the current threshold, `true` otherwise),
`retryContourMerge` is cleared as soon as one contour qualifies, and
`relaxContourMerge` grows by 2 after the pass. -/
def relaxPass (sizes : List Nat) (minSize : Int) (s : RelaxState) : RelaxState :=
  let flags := sizes.map (fun sz => ! cppSizeLt sz (minSize - s.relaxContourMerge))
  { contourMergeable := flags,
    retryContourMerge := s.retryContourMerge && ! flags.any id,
    relaxContourMerge := s.relaxContourMerge + 2 }

/-- The while-loop of lines 188-206, with explicit fuel: `none` means the
fuel ran out with the guard still true.  Fuel 41 is proved sufficient below
for the only threshold the program ever uses (`m_min_contour_size = 80`). -/
def relaxLoop (sizes : List Nat) (minSize : Int) : Nat → RelaxState → Option RelaxState
  | 0, s => if s.retryContourMerge && decide (0 < sizes.length) then none else some s
  | fuel + 1, s =>
    if s.retryContourMerge && decide (0 < sizes.length) then
      relaxLoop sizes minSize fuel (relaxPass sizes minSize s)
    else some s

/-- Initial loop state, lines 185-187: `std::vector<bool>` of the contour
count (value-initialized to `false`), retry set, relaxation 0. -/
def relaxInit (sizes : List Nat) : RelaxState :=
  { contourMergeable := List.replicate sizes.length false,
    retryContourMerge := true,
    relaxContourMerge := 0 }

/-- Run the relaxation loop from its initial state. -/
def runRelax (sizes : List Nat) (minSize : Int) (fuel : Nat) : Option RelaxState :=
  relaxLoop sizes minSize fuel (relaxInit sizes)

/-- Some contour qualifies at threshold `t` under the C++ comparison. -/
def anyQual (sizes : List Nat) (t : Int) : Bool :=
  sizes.any (fun sz => ! cppSizeLt sz t)

lemma cppSizeLt_zero (sz : Nat) : cppSizeLt sz 0 = false := by
  simp only [cppSizeLt, Int.zero_emod, decide_eq_false_iff_not, Int.not_lt]
  exact Int.natCast_nonneg _

lemma anyQual_zero (sizes : List Nat) (hpos : 0 < sizes.length) : anyQual sizes 0 = true := by
  cases sizes with
  | nil => simp at hpos
  | cons a l => simp [anyQual, cppSizeLt_zero]

lemma flags_any (sizes : List Nat) (t : Int) :
    ((sizes.map (fun sz => ! cppSizeLt sz t)).any id) = anyQual sizes t := by
  induction sizes with
  | nil => rfl
  | cons a l ih =>
    show (id (! cppSizeLt a t) || (l.map (fun sz => ! cppSizeLt sz t)).any id)
        = ((! cppSizeLt a t) || anyQual l t)
    rw [ih]
    rfl

lemma relaxLoop_of_retry_false (sizes : List Nat) (m : Int) (fuel : Nat) (s : RelaxState)
    (h : s.retryContourMerge = false) : relaxLoop sizes m fuel s = some s := by
  cases fuel <;> simp [relaxLoop, h]

/-- If within `fuel` passes the descending threshold admits some contour, the
while-loop exits, having cleared the retry flag and marked at least one
contour mergeable. -/
lemma relaxLoop_exits (sizes : List Nat) (m : Int) :
    ∀ fuel : Nat, ∀ s : RelaxState, s.retryContourMerge = true → 0 < sizes.length →
      (∃ k : Nat, k < fuel ∧
        anyQual sizes (m - (s.relaxContourMerge + 2 * (k : Int))) = true) →
      ∃ s2, relaxLoop sizes m fuel s = some s2 ∧ s2.retryContourMerge = false ∧
        s2.contourMergeable.any id = true ∧ s2.contourMergeable.length = sizes.length := by
  intro fuel
  induction fuel with
  | zero =>
    rintro s _ _ ⟨k, hk, _⟩
    omega
  | succ f ih =>
    rintro s hretry hpos ⟨k, hk, hq⟩
    have hstep : relaxLoop sizes m (f + 1) s = relaxLoop sizes m f (relaxPass sizes m s) := by
      simp [relaxLoop, hretry, hpos]
    have hflags : (relaxPass sizes m s).contourMergeable
        = sizes.map (fun sz => ! cppSizeLt sz (m - s.relaxContourMerge)) := rfl
    have hretry2 : (relaxPass sizes m s).retryContourMerge
        = ! anyQual sizes (m - s.relaxContourMerge) := by
      simp [relaxPass, hretry, flags_any]
    by_cases hq0 : anyQual sizes (m - s.relaxContourMerge) = true
    · refine ⟨relaxPass sizes m s, ?_, ?_, ?_, ?_⟩
      · rw [hstep]
        exact relaxLoop_of_retry_false _ _ _ _ (by rw [hretry2, hq0, Bool.not_true])
      · rw [hretry2, hq0, Bool.not_true]
      · rw [hflags, flags_any]
        exact hq0
      · rw [hflags]
        exact List.length_map _ _
    · have hq0f : anyQual sizes (m - s.relaxContourMerge) = false :=
        Bool.eq_false_iff.mpr hq0
      cases k with
      | zero =>
        exfalso
        apply hq0
        have hz : m - (s.relaxContourMerge + 2 * ((0 : Nat) : Int)) = m - s.relaxContourMerge := by
          push_cast
          ring
        rw [hz] at hq
        exact hq
      | succ k0 =>
        have hretry2t : (relaxPass sizes m s).retryContourMerge = true := by
          rw [hretry2, hq0f, Bool.not_false]
        have hrel : (relaxPass sizes m s).relaxContourMerge = s.relaxContourMerge + 2 := rfl
        have hq2 : anyQual sizes
            (m - ((relaxPass sizes m s).relaxContourMerge + 2 * ((k0 : Nat) : Int))) = true := by
          rw [hrel]
          have he : m - (s.relaxContourMerge + 2 + 2 * ((k0 : Nat) : Int))
              = m - (s.relaxContourMerge + 2 * (((k0 + 1 : Nat) : Nat) : Int)) := by
            push_cast
            ring
          rw [he]
          exact hq
        obtain ⟨s2, h1, h2, h3, h4⟩ := ih (relaxPass sizes m s) hretry2t hpos ⟨k0, by omega, hq2⟩
        exact ⟨s2, by rw [hstep]; exact h1, h2, h3, h4⟩

/-- C1: for a non-empty contour list in which every contour is shorter than
`m_min_contour_size = 80`, the relaxation loop of lines 185-206 terminates
(41 passes always suffice: the threshold `80 - relaxContourMerge` reaches 0,
where the unsigned comparison `size < 0` is false for every contour), exits
with the retry flag cleared, and has marked at least one contour mergeable. -/
theorem relax_terminates_small (sizes : List Nat) (hne : sizes ≠ [])
    (hsmall : ∀ sz ∈ sizes, sz < 80) :
    ∃ s2, runRelax sizes 80 41 = some s2 ∧ s2.retryContourMerge = false ∧
      s2.contourMergeable.any id = true := by
  have hpos : 0 < sizes.length := List.length_pos.mpr hne
  have hq : anyQual sizes ((80 : Int) - ((relaxInit sizes).relaxContourMerge
      + 2 * ((40 : Nat) : Int))) = true := by
    have h0 : (80 : Int) - ((relaxInit sizes).relaxContourMerge + 2 * ((40 : Nat) : Int)) = 0 := by
      show (80 : Int) - ((0 : Int) + 2 * ((40 : Nat) : Int)) = 0
      norm_num
    rw [h0]
    exact anyQual_zero sizes hpos
  obtain ⟨s2, h1, h2, h3, _⟩ :=
    relaxLoop_exits sizes 80 41 (relaxInit sizes) rfl hpos ⟨40, by omega, hq⟩
  exact ⟨s2, h1, h2, h3⟩

/-- Witness for `relax_terminates_small` at the concrete contour-size list
`[3]`. -/
theorem relax_terminates_small_witness :
    (([3] : List Nat) ≠ [] ∧ ∀ sz ∈ ([3] : List Nat), sz < 80) ∧
    (∃ s2, runRelax [3] 80 41 = some s2 ∧ s2.retryContourMerge = false ∧
      s2.contourMergeable.any id = true) :=
  ⟨⟨by decide, by decide⟩, relax_terminates_small [3] (by decide) (by decide)⟩

lemma notCppSizeLt_80 (sz : Nat) (h : sz < 2 ^ 64) :
    (! cppSizeLt sz 80) = decide (80 ≤ sz) := by
  have hmod : sz % 2 ^ 64 = sz := Nat.mod_eq_of_lt h
  have hre : (80 : Int) % (2 ^ 64 : Int) = 80 := by decide
  simp only [cppSizeLt, hmod, hre]
  rcases Nat.lt_or_ge sz 80 with hlt | hge
  · have h1 : ((sz : Nat) : Int) < 80 := by exact_mod_cast hlt
    simp [h1, Nat.not_le.mpr hlt]
  · have h1 : ¬ ((sz : Nat) : Int) < 80 := by
      rw [Int.not_lt]
      exact_mod_cast hge
    simp [h1, hge]

/-- C6: when at least one contour already has length `≥ 80 = minContourSize`,
the relaxation loop exits after its single first pass (fuel 1 suffices), the
relaxation amount has only received its unconditional post-pass increment,
and the mergeable flags are exactly the contours of length `≥ 80`. -/
theorem relax_first_pass (sizes : List Nat)
    (hbound : ∀ sz ∈ sizes, sz < 2 ^ 64) (hbig : ∃ sz ∈ sizes, 80 ≤ sz) :
    runRelax sizes 80 1 = some
      { contourMergeable := sizes.map (fun sz => decide (80 ≤ sz)),
        retryContourMerge := false,
        relaxContourMerge := 2 } := by
  obtain ⟨sz0, hmem, h80⟩ := hbig
  have hpos : 0 < sizes.length := List.length_pos_of_mem hmem
  have hflags : sizes.map (fun sz => ! cppSizeLt sz ((80 : Int) - (0 : Int)))
      = sizes.map (fun sz => decide (80 ≤ sz)) := by
    refine List.map_congr_left ?_
    intro sz hsz
    rw [show (80 : Int) - (0 : Int) = 80 by ring]
    exact notCppSizeLt_80 sz (hbound sz hsz)
  have hany : (sizes.map (fun sz => ! cppSizeLt sz ((80 : Int) - (0 : Int)))).any id = true := by
    rw [flags_any]
    simp only [anyQual]
    refine List.any_eq_true.mpr ⟨sz0, hmem, ?_⟩
    rw [show (80 : Int) - (0 : Int) = 80 by ring, notCppSizeLt_80 sz0 (hbound sz0 hmem)]
    simp [h80]
  have hstep : runRelax sizes 80 1 = relaxLoop sizes 80 0 (relaxPass sizes 80 (relaxInit sizes)) := by
    show relaxLoop sizes 80 (0 + 1) (relaxInit sizes) = _
    simp [relaxLoop, relaxInit, hpos]
  rw [hstep]
  have hretryf : (relaxPass sizes 80 (relaxInit sizes)).retryContourMerge = false := by
    show ((relaxInit sizes).retryContourMerge
      && ! (sizes.map (fun sz => ! cppSizeLt sz ((80 : Int) - (relaxInit sizes).relaxContourMerge))).any id) = false
    show (true && ! (sizes.map (fun sz => ! cppSizeLt sz ((80 : Int) - (0 : Int)))).any id) = false
    rw [hany]
    rfl
  rw [relaxLoop_of_retry_false _ _ _ _ hretryf]
  have hpass : relaxPass sizes 80 (relaxInit sizes)
      = { contourMergeable := sizes.map (fun sz => ! cppSizeLt sz ((80 : Int) - (0 : Int))),
          retryContourMerge :=
            (true && ! (sizes.map (fun sz => ! cppSizeLt sz ((80 : Int) - (0 : Int)))).any id),
          relaxContourMerge := (0 : Int) + 2 } := rfl
  rw [hpass, hany, hflags]
  norm_num

/-- Witness for `relax_first_pass` at the concrete contour-size list
`[100, 3]`. -/
theorem relax_first_pass_witness :
    ((∀ sz ∈ ([100, 3] : List Nat), sz < 2 ^ 64) ∧ (∃ sz ∈ ([100, 3] : List Nat), 80 ≤ sz)) ∧
    runRelax [100, 3] 80 1 = some
      { contourMergeable := [true, false], retryContourMerge := false, relaxContourMerge := 2 } :=
  ⟨⟨by decide, by decide⟩, by
    rw [relax_first_pass [100, 3] (by decide) ⟨100, by decide, by decide⟩]
    rfl⟩

/-! ## Contour merge, PupilTracker.cpp lines 208-217 -/

/-- The merge loop: `success` starts `false`; for each contour whose flag is
set, `success` becomes `true` and the contour points are appended to
`contoursMerged`.  In the source the loop indexes `contours` and
`contourMergeable` in lockstep and the two always have the same length, which
the zip reproduces. -/
def contourMergeStage (contours : List (List Point)) (flags : List Bool) :
    Bool × List Point :=
  (contours.zip flags).foldl
    (fun acc cf => if cf.2 then (true, acc.2 ++ cf.1) else acc) (false, [])

/-- The mergeable flags produced by the relaxation loop for a contour list,
run with the provably sufficient fuel 41 (see `relaxLoop_exits`); the
`getD` fallback is never taken for the program threshold 80. -/
def selectContours (contours : List (List Point)) (minContour : Int) : List Bool :=
  ((runRelax (contours.map List.length) minContour 41).getD
    (relaxInit (contours.map List.length))).contourMergeable

/-- Relaxation plus merge, lines 185-217. -/
def selectAndMerge (contours : List (List Point)) (minContour : Int) :
    Bool × List Point :=
  contourMergeStage contours (selectContours contours minContour)

/-! ## Tracker state and the composed pipeline -/

/-- The OpenCV routines the pipeline calls; they live outside this
repository, so they are abstracted as arbitrary (deterministic) functions.
`cvtGrayNormalize` is lines 75-76 (`cvtColor` + `normalize`), `inRange255`
is `cv::inRange(img, 0, hi, dst)`, `dilate2`/`erode1` carry the fixed 7x7
elliptical kernel of lines 124-137, `boxBlur` is `cv::blur`, `canny` takes
the low threshold, high threshold and aperture, `findContoursF` is
`cv::findContours` with `CV_RETR_CCOMP`/`CV_CHAIN_APPROX_SIMPLE`,
`fitEllipseF` is `cv::fitEllipse`, and `drawFiltered` produces the
filtered-contours debug image of lines 223-234. -/
structure CVOps where
  cvtGrayNormalize : Image → Image
  inRange255 : Image → Int → Image
  dilate2 : Image → Image
  erode1 : Image → Image
  boxBlur : Int → Image → Image
  canny : Int → Int → Int → Image → Image
  findContoursF : Image → List (List Point)
  fitEllipseF : List Point → RotatedRect
  drawFiltered : Image → List (List Point) → List Bool → Image

/-- `cv::min` on two 8-bit images: pixel-wise minimum (lines 172-173). -/
def cvMin (a b : Image) : Image :=
  List.zipWith min a b

/-- The member state of a `PupilTracker` object (PupilTracker.h lines
24-53).  `camera_width`/`camera_height` are left uninitialized by the
constructor and are modelled as `Option Int`. -/
structure TrackerState where
  m_ellipseRectangle : RotatedRect
  m_blur : Int
  m_canny_thresh : Int
  m_canny_ratio : Int
  m_canny_aperture : Int
  m_bin_thresh : Int
  m_pupilIntensityOffset : Int
  m_glintIntensityOffset : Int
  m_min_contour_size : Int
  m_confidence : ℚ
  m_display : Bool
  maskImage : Option Image
  camera_width : Option Int
  camera_height : Option Int
  images : List Image

/-- The parameters `findPupil` reads from the tracker state (it never writes
any of them). -/
structure DetectParams where
  maskImage : Option Image
  m_pupilIntensityOffset : Int
  m_glintIntensityOffset : Int
  m_blur : Int
  m_canny_thresh : Int
  m_canny_ratio : Int
  m_canny_aperture : Int
  m_min_contour_size : Int

/-- The detection parameters of a tracker state. -/
def TrackerState.detectParams (st : TrackerState) : DetectParams :=
  { maskImage := st.maskImage,
    m_pupilIntensityOffset := st.m_pupilIntensityOffset,
    m_glintIntensityOffset := st.m_glintIntensityOffset,
    m_blur := st.m_blur,
    m_canny_thresh := st.m_canny_thresh,
    m_canny_ratio := st.m_canny_ratio,
    m_canny_aperture := st.m_canny_aperture,
    m_min_contour_size := st.m_min_contour_size }

/-- Lines 47-76: masked input converted to the normalized grayscale working
image. -/
def workingGray (ops : CVOps) (maskImage : Option Image) (eye : Image) : Image :=
  ops.cvtGrayNormalize (preprocessInput maskImage eye)

/-- Lines 84-118: `(lowestSpike, highestSpike)` for the working image. -/
def pupilThresholds (ops : CVOps) (maskImage : Option Image) (eye : Image) : Nat × Nat :=
  estimateThresholds (workingGray ops maskImage eye)

/-- Lines 121-125: `inRange(imageGray, 0, lowestSpike + m_pupilIntensityOffset)`
dilated twice. -/
def darkMaskOf (ops : CVOps) (p : DetectParams) (eye : Image) : Image :=
  ops.dilate2 (ops.inRange255 (workingGray ops p.maskImage eye)
    (((pupilThresholds ops p.maskImage eye).1 : Int) + p.m_pupilIntensityOffset))

/-- Lines 134-137: `inRange(imageGray, 0, highestSpike - m_glintIntensityOffset)`
eroded once. -/
def glintMaskOf (ops : CVOps) (p : DetectParams) (eye : Image) : Image :=
  ops.erode1 (ops.inRange255 (workingGray ops p.maskImage eye)
    (((pupilThresholds ops p.maskImage eye).2 : Int) - p.m_glintIntensityOffset))

/-- Lines 144-154: box blur when `m_blur > 1`, otherwise the grayscale image
unchanged. -/
def blurredOf (ops : CVOps) (p : DetectParams) (eye : Image) : Image :=
  if 1 < p.m_blur then ops.boxBlur p.m_blur (workingGray ops p.maskImage eye)
  else workingGray ops p.maskImage eye

/-- Lines 161-163: Canny with thresholds `m_canny_thresh` and
`m_canny_thresh * m_canny_ratio` and aperture `m_canny_aperture`. -/
def edgesOf (ops : CVOps) (p : DetectParams) (eye : Image) : Image :=
  ops.canny p.m_canny_thresh (p.m_canny_thresh * p.m_canny_ratio) p.m_canny_aperture
    (blurredOf ops p eye)

/-- Lines 170-173: edges pruned to the pixel-wise minimum with both masks. -/
def edgesPrunedOf (ops : CVOps) (p : DetectParams) (eye : Image) : Image :=
  cvMin (cvMin (edgesOf ops p eye) (darkMaskOf ops p eye)) (glintMaskOf ops p eye)

/-- Lines 180-182: connected components of the pruned edge map. -/
def pupilContours (ops : CVOps) (p : DetectParams) (eye : Image) : List (List Point) :=
  ops.findContoursF (edgesPrunedOf ops p eye)

/-- Everything `findPupil` computes before updating the member state. -/
structure FindOutput where
  imageGray : Image
  lowestSpike : Nat
  highestSpike : Nat
  darkMask : Image
  glintMask : Image
  edges : Image
  edgesPruned : Image
  contours : List (List Point)
  contourMergeable : List Bool
  success : Bool
  contoursMerged : List Point
  filteredContours : Image

/-- The full detection pipeline of `findPupil` (lines 42-236) as a function
of the parameters it reads. -/
def detectOutputs (ops : CVOps) (p : DetectParams) (eye : Image) : FindOutput :=
  { imageGray := workingGray ops p.maskImage eye,
    lowestSpike := (pupilThresholds ops p.maskImage eye).1,
    highestSpike := (pupilThresholds ops p.maskImage eye).2,
    darkMask := darkMaskOf ops p eye,
    glintMask := glintMaskOf ops p eye,
    edges := edgesOf ops p eye,
    edgesPruned := edgesPrunedOf ops p eye,
    contours := pupilContours ops p eye,
    contourMergeable := selectContours (pupilContours ops p eye) p.m_min_contour_size,
    success := (selectAndMerge (pupilContours ops p eye) p.m_min_contour_size).1,
    contoursMerged := (selectAndMerge (pupilContours ops p eye) p.m_min_contour_size).2,
    filteredContours := ops.drawFiltered (edgesPrunedOf ops p eye) (pupilContours ops p eye)
      (selectContours (pupilContours ops p eye) p.m_min_contour_size) }

/-- `PupilTracker::findPupil` (lines 42-250): runs the pipeline, then
mutates the member state: `m_bin_thresh = lowestSpike` (line 119), the five
debug pushes onto `images` when `m_display` is set (lines 79, 128, 140, 166,
234), and `m_ellipseRectangle = fitEllipse(contoursMerged)` on success
(line 242).  Returns the boolean result together with the updated state. -/
def findPupil (ops : CVOps) (st : TrackerState) (eyeImage : Image) :
    FindOutput × TrackerState :=
  let out := detectOutputs ops (TrackerState.detectParams st) eyeImage
  (out,
    { st with
        m_bin_thresh := (out.lowestSpike : Int),
        images :=
          if st.m_display then
            st.images ++ [out.imageGray, out.darkMask, out.glintMask, out.edges,
              out.filteredContours]
          else st.images,
        m_ellipseRectangle :=
          if out.success then ops.fitEllipseF out.contoursMerged
          else st.m_ellipseRectangle })

/-- `PupilTracker::getEllipseCentroid` (lines 257-260). -/
def getEllipseCentroid (st : TrackerState) : ℚ × ℚ :=
  st.m_ellipseRectangle.center

/-- `PupilTracker::getEllipseRectangle` (lines 267-270). -/
def getEllipseRectangle (st : TrackerState) : RotatedRect :=
  st.m_ellipseRectangle

/-- `PupilTracker::setDisplay` (lines 277-280). -/
def setDisplay (st : TrackerState) (display : Bool) : TrackerState :=
  { st with m_display := display }

/-- The `PupilTracker()` constructor (lines 18-33): the settings are
assigned, `setDisplay(false)` is called, and `m_ellipseRectangle` is left to
its `cv::RotatedRect` default constructor, which value-initializes center,
size and angle to zero. -/
def PupilTracker.init : TrackerState :=
  { m_ellipseRectangle := { center := (0, 0), size := (0, 0), angle := 0 },
    m_blur := 5,
    m_canny_thresh := 159,
    m_canny_ratio := 2,
    m_canny_aperture := 5,
    m_bin_thresh := 0,
    m_pupilIntensityOffset := 11,
    m_glintIntensityOffset := 5,
    m_min_contour_size := 80,
    m_confidence := 0,
    m_display := false,
    maskImage := none,
    camera_width := none,
    camera_height := none,
    images := [] }

/-- A concrete instantiation of the external OpenCV routines, used by the
closed witness theorems. -/
def trivOps : CVOps :=
  { cvtGrayNormalize := fun img => img,
    inRange255 := fun _ _ => [],
    dilate2 := fun _ => [],
    erode1 := fun _ => [],
    boxBlur := fun _ img => img,
    canny := fun _ _ _ _ => [],
    findContoursF := fun _ => [],
    fitEllipseF := fun _ => { center := (0, 0), size := (0, 0), angle := 0 },
    drawFiltered := fun _ _ _ => [] }

lemma mergeFold_fst (l : List (List Point × Bool)) (acc : Bool × List Point) :
    (l.foldl (fun a cf => if cf.2 then (true, a.2 ++ cf.1) else a) acc).1
      = (acc.1 || l.any (fun cf => cf.2)) := by
  induction l generalizing acc with
  | nil => simp
  | cons x xs ih =>
    cases hx : x.2 with
    | false => simp [List.foldl_cons, List.any_cons, hx, ih]
    | true => simp [List.foldl_cons, List.any_cons, hx, ih]

lemma zip_any_snd (contours : List (List Point)) (flags : List Bool)
    (hlen : flags.length = contours.length) :
    (contours.zip flags).any (fun cf => cf.2) = flags.any id := by
  induction contours generalizing flags with
  | nil =>
    cases flags with
    | nil => simp
    | cons f fs => simp at hlen
  | cons c cs ih =>
    cases flags with
    | nil => simp at hlen
    | cons f fs =>
      have hlen2 : fs.length = cs.length := by simpa using hlen
      simp [List.zip_cons_cons, List.any_cons, ih fs hlen2]

lemma contourMergeStage_fst (contours : List (List Point)) (flags : List Bool) :
    (contourMergeStage contours flags).1 = (contours.zip flags).any (fun cf => cf.2) := by
  simpa using mergeFold_fst (contours.zip flags) (false, [])

/-- With the program threshold 80, the selection-plus-merge stage succeeds
exactly when the contour list is non-empty: the relaxation loop always exits
(threshold 0 admits every contour under the unsigned comparison) with at
least one flag set. -/
lemma selectAndMerge_success_iff (contours : List (List Point)) :
    (selectAndMerge contours 80).1 = true ↔ contours ≠ [] := by
  cases contours with
  | nil => decide
  | cons c cs =>
    have hpos : 0 < ((c :: cs).map List.length).length := by simp
    have hq : anyQual ((c :: cs).map List.length)
        ((80 : Int) - ((relaxInit ((c :: cs).map List.length)).relaxContourMerge
          + 2 * ((40 : Nat) : Int))) = true := by
      have h0 : (80 : Int) - ((relaxInit ((c :: cs).map List.length)).relaxContourMerge
          + 2 * ((40 : Nat) : Int)) = 0 := by
        show (80 : Int) - ((0 : Int) + 2 * ((40 : Nat) : Int)) = 0
        norm_num
      rw [h0]
      exact anyQual_zero _ hpos
    obtain ⟨s2, hrun, _, hany, hlenq⟩ :=
      relaxLoop_exits ((c :: cs).map List.length) 80 41
        (relaxInit ((c :: cs).map List.length)) rfl hpos ⟨40, by omega, hq⟩
    have hsel : selectContours (c :: cs) 80 = s2.contourMergeable := by
      simp only [selectContours, runRelax] at hrun ⊢
      rw [hrun]
      rfl
    constructor
    · intro _
      simp
    · intro _
      show (contourMergeStage (c :: cs) (selectContours (c :: cs) 80)).1 = true
      rw [contourMergeStage_fst, hsel,
        zip_any_snd (c :: cs) s2.contourMergeable (by simpa using hlenq), hany]

/-- C2: `findPupil` reports success exactly when the pruned edge map yields
at least one contour (lines 185-217, 239-249): a non-empty contour list
always ends with at least one contour marked mergeable and merged, and an
empty list leaves `success = false`. -/
theorem findPupil_success_iff (ops : CVOps) (st : TrackerState) (eye : Image)
    (hmin : st.m_min_contour_size = 80) :
    ((findPupil ops st eye).1.success = true ↔ (findPupil ops st eye).1.contours ≠ []) := by
  have e1 : (findPupil ops st eye).1.success
      = (selectAndMerge (pupilContours ops (TrackerState.detectParams st) eye)
          (TrackerState.detectParams st).m_min_contour_size).1 := rfl
  have e2 : (findPupil ops st eye).1.contours
      = pupilContours ops (TrackerState.detectParams st) eye := rfl
  have e3 : (TrackerState.detectParams st).m_min_contour_size = 80 := hmin
  rw [e1, e2, e3]
  exact selectAndMerge_success_iff _

/-- Witness for `findPupil_success_iff` on a fresh tracker and a concrete
image (the abstract contour extractor returns no contours, so both sides are
false). -/
theorem findPupil_success_iff_witness :
    (PupilTracker.init.m_min_contour_size = 80) ∧
    ((findPupil trivOps PupilTracker.init [0]).1.success = true
      ↔ (findPupil trivOps PupilTracker.init [0]).1.contours ≠ []) :=
  ⟨by decide, findPupil_success_iff trivOps PupilTracker.init [0] (by decide)⟩

lemma iteAbsorb (p : Prop) [Decidable p] {α : Type} (e x : α) :
    (if p then e else (if p then e else x)) = (if p then e else x) := by
  by_cases h : p <;> simp [h]

/-- On a failed detection the stored ellipse rectangle is not written
(lines 239-249 only assign `m_ellipseRectangle` in the `success` branch). -/
lemma findPupil_fail_ellipse (ops : CVOps) (st : TrackerState) (eye : Image)
    (h : (findPupil ops st eye).1.success = false) :
    (findPupil ops st eye).2.m_ellipseRectangle = st.m_ellipseRectangle := by
  have e1 : (findPupil ops st eye).2.m_ellipseRectangle
      = (if (findPupil ops st eye).1.success then
          ops.fitEllipseF (findPupil ops st eye).1.contoursMerged
        else st.m_ellipseRectangle) := rfl
  rw [e1, h]
  simp

/-- C5: when `findPupil` returns `false`, the member `m_ellipseRectangle` is
untouched, so `getEllipseRectangle` and `getEllipseCentroid` afterwards
return exactly what they returned before the failed call. -/
theorem findPupil_failure_preserves (ops : CVOps) (st : TrackerState) (eye : Image)
    (hfail : (findPupil ops st eye).1.success = false) :
    (findPupil ops st eye).2.m_ellipseRectangle = st.m_ellipseRectangle ∧
    getEllipseRectangle (findPupil ops st eye).2 = getEllipseRectangle st ∧
    getEllipseCentroid (findPupil ops st eye).2 = getEllipseCentroid st := by
  have h := findPupil_fail_ellipse ops st eye hfail
  exact ⟨h, by simp [getEllipseRectangle, h], by simp [getEllipseCentroid, h]⟩

/-- Witness for `findPupil_failure_preserves`: a fresh tracker and a
concrete frame on which detection fails. -/
theorem findPupil_failure_preserves_witness :
    ((findPupil trivOps PupilTracker.init [0]).1.success = false) ∧
    ((findPupil trivOps PupilTracker.init [0]).2.m_ellipseRectangle
        = PupilTracker.init.m_ellipseRectangle ∧
      getEllipseRectangle (findPupil trivOps PupilTracker.init [0]).2
        = getEllipseRectangle PupilTracker.init ∧
      getEllipseCentroid (findPupil trivOps PupilTracker.init [0]).2
        = getEllipseCentroid PupilTracker.init) :=
  ⟨by decide, findPupil_failure_preserves trivOps PupilTracker.init [0] (by decide)⟩

/-- C8 (amended): the per-invocation buffers are locals of the call, but the
debug images are not — `images` is a member `std::vector<cv::Mat>` that is
never cleared, so with the display flag set each call appends the grayscale
image, both masks, the raw edges and the filtered-contours image to the
tracker state, and only with the flag clear is nothing retained. -/
theorem findPupil_images_update (ops : CVOps) (st : TrackerState) (eye : Image) :
    (findPupil ops st eye).2.images
      = (if st.m_display then
          st.images ++ [(findPupil ops st eye).1.imageGray,
            (findPupil ops st eye).1.darkMask, (findPupil ops st eye).1.glintMask,
            (findPupil ops st eye).1.edges, (findPupil ops st eye).1.filteredContours]
        else st.images) := rfl

/-- Counterexample to C8 as stated: with the debug-display setting enabled,
a single call on a concrete frame leaves intermediate images retained in the
tracker state after it returns (`images` grows from `[]` to five entries),
so the buffers are not all scoped to the invocation regardless of the
setting. -/
theorem findPupil_images_retained_counterexample :
    ((findPupil trivOps (setDisplay PupilTracker.init true) [0]).2.images ≠ []) ∧
    (setDisplay PupilTracker.init true).images = [] := by
  constructor
  · decide
  · rfl

/-- C9: a second call on the identical image yields the identical outputs —
bit-identical masks, identical contour list, the same success flag — and the
identical stored ellipse; no state mutated by the first call (the ellipse,
`m_bin_thresh`, the debug image list) feeds back into detection. -/
theorem findPupil_idempotent (ops : CVOps) (st : TrackerState) (eye : Image) :
    (findPupil ops (findPupil ops st eye).2 eye).1 = (findPupil ops st eye).1 ∧
    (findPupil ops (findPupil ops st eye).2 eye).2.m_ellipseRectangle
      = (findPupil ops st eye).2.m_ellipseRectangle := by
  constructor
  · rfl
  · exact iteAbsorb
      ((detectOutputs ops (TrackerState.detectParams st) eye).success = true)
      (ops.fitEllipseF (detectOutputs ops (TrackerState.detectParams st) eye).contoursMerged)
      st.m_ellipseRectangle

/-- A sequence of `findPupil` calls threaded through the tracker state,
returning the final state and the list of per-call results. -/
def runCalls (ops : CVOps) : List Image → TrackerState → TrackerState × List Bool
  | [], st => (st, [])
  | eye :: rest, st =>
    let r := findPupil ops st eye
    let t := runCalls ops rest r.2
    (t.1, r.1.success :: t.2)

lemma runCalls_ellipse (ops : CVOps) (eyes : List Image) :
    ∀ st : TrackerState, (∀ b ∈ (runCalls ops eyes st).2, b = false) →
      (runCalls ops eyes st).1.m_ellipseRectangle = st.m_ellipseRectangle := by
  induction eyes with
  | nil =>
    intro st _
    rfl
  | cons e rest ih =>
    intro st hall
    have hmem : (findPupil ops st e).1.success ∈ (runCalls ops (e :: rest) st).2 := by
      show _ ∈ (findPupil ops st e).1.success :: (runCalls ops rest (findPupil ops st e).2).2
      exact List.mem_cons_self _ _
    have h1 : (findPupil ops st e).1.success = false := hall _ hmem
    have h2 : ∀ b ∈ (runCalls ops rest (findPupil ops st e).2).2, b = false := by
      intro b hb
      refine hall b ?_
      show b ∈ (findPupil ops st e).1.success :: (runCalls ops rest (findPupil ops st e).2).2
      exact List.mem_cons_of_mem _ hb
    calc (runCalls ops (e :: rest) st).1.m_ellipseRectangle
        = (runCalls ops rest (findPupil ops st e).2).1.m_ellipseRectangle := rfl
      _ = (findPupil ops st e).2.m_ellipseRectangle := ih (findPupil ops st e).2 h2
      _ = st.m_ellipseRectangle := findPupil_fail_ellipse ops st e h1

/-- C10: starting from a freshly constructed tracker, as long as no call of
`findPupil` has returned `true`, `getEllipseRectangle` returns the
default-constructed rotated rectangle (center (0,0), size (0,0), angle 0)
and `getEllipseCentroid` returns (0,0); the accessors are total and carry no
failure signal. -/
theorem fresh_tracker_accessors (ops : CVOps) (eyes : List Image)
    (hfail : ∀ b ∈ (runCalls ops eyes PupilTracker.init).2, b = false) :
    getEllipseRectangle (runCalls ops eyes PupilTracker.init).1
      = { center := (0, 0), size := (0, 0), angle := 0 } ∧
    getEllipseCentroid (runCalls ops eyes PupilTracker.init).1 = (0, 0) := by
  have h := runCalls_ellipse ops eyes PupilTracker.init hfail
  constructor
  · show (runCalls ops eyes PupilTracker.init).1.m_ellipseRectangle = _
    rw [h]
    rfl
  · show (runCalls ops eyes PupilTracker.init).1.m_ellipseRectangle.center = _
    rw [h]
    rfl

/-- Witness for `fresh_tracker_accessors`: one concrete failing call. -/
theorem fresh_tracker_accessors_witness :
    (∀ b ∈ (runCalls trivOps [[0]] PupilTracker.init).2, b = false) ∧
    (getEllipseRectangle (runCalls trivOps [[0]] PupilTracker.init).1
        = { center := (0, 0), size := (0, 0), angle := 0 } ∧
      getEllipseCentroid (runCalls trivOps [[0]] PupilTracker.init).1 = (0, 0)) :=
  ⟨by decide, fresh_tracker_accessors trivOps [[0]] (by decide)⟩

/-! ## The histogram-read theorems, PupilTracker.cpp lines 92-118 -/

/-- A uniform 50-pixel working image of intensity 0. -/
def imgUniform50 : Image := List.replicate 50 0

/-- A 100-pixel working image: 50 pixels of intensity 0 and 50 of
intensity 1. -/
def imgTwoLevel : Image := List.replicate 50 0 ++ List.replicate 50 1

set_option maxRecDepth 100000 in
/-- C3 fails on the code: `imgUniform50` has exactly one spec-spike bucket
(bucket 0, count 50 ≥ 40), so the claim requires the full-range fallback
`(0, 255)`; but the scan of lines 97-112 reads the CV_32F histogram through
`at<uchar>`, sees bytes 72 and 66 of the float 50.0 at indices 2 and 3,
counts two spikes, skips the fallback, and produces `(2, 3)`. -/
theorem spike_fallback_missed :
    (specSpikeBuckets imgUniform50).length = 1 ∧
    estimateThresholds imgUniform50 = (2, 3) ∧
    estimateThresholds imgUniform50 ≠ (0, 255) := by
  refine ⟨by decide, by decide, by decide⟩

set_option maxRecDepth 100000 in
/-- C4 fails on the code: on `imgTwoLevel` the spec-spike buckets are
`[0, 1]` (both counts are 50 ≥ 40), so the claim requires
`lowestSpike = 0` and `highestSpike = 1`; the byte-reinterpreting scan of
lines 97-112 instead finds spikes at indices 2, 3, 6, 7 (the two high bytes
of each float 50.0) and reports `lowestSpike = 2`, `highestSpike = 7`. -/
theorem spike_scan_reads_float_bytes :
    specSpikeBuckets imgTwoLevel = [0, 1] ∧
    spikeScanLoop (histByteAt imgTwoLevel)
      = { lowestSpike := 2, highestSpike := 7, numSpikes := 4 } := by
  refine ⟨by decide, by decide⟩

/-! ## The preprocessor theorem, PupilTracker.cpp lines 47-69 -/

lemma applyMaskStage_getD (eye mask : Image) (i : Nat)
    (hlen : mask.length = eye.length) (hval : ∀ v ∈ eye, v ≤ 255)
    (hi : i < eye.length) :
    (applyMaskStage eye mask).getD i 0
      = (if mask.getD i 0 ≠ 0 then eye.getD i 0 else 255) := by
  induction eye generalizing mask i with
  | nil => simp at hi
  | cons e es ih =>
    cases mask with
    | nil => simp at hlen
    | cons m ms =>
      have hlen2 : ms.length = es.length := by simpa using hlen
      have hval2 : ∀ v ∈ es, v ≤ 255 := fun v hv => hval v (List.mem_cons_of_mem _ hv)
      have he : e ≤ 255 := hval e (List.mem_cons_self _ _)
      have hstep : applyMaskStage (e :: es) (m :: ms)
          = (255 - (if m ≠ 0 then 255 - e else 0)) :: applyMaskStage es ms := by
        simp [applyMaskStage, copyToMasked]
      cases i with
      | zero =>
        rw [hstep]
        simp only [List.getD_cons_zero]
        by_cases hm : m = 0
        · simp [hm]
        · simp only [hm, ne_eq, not_false_eq_true, if_true]
          omega
      | succ j =>
        rw [hstep]
        simp only [List.getD_cons_succ]
        exact ih ms j hlen2 hval2 (by simpa using hi)

/-- C7: with a region-of-interest mask set, the image handed to the
grayscale conversion carries the original source value at every pixel inside
the mask and 255 at every pixel outside it (invert, masked copy onto a
zero-initialized buffer, invert back); with no mask set, the source image is
passed through unmodified. -/
theorem mask_preprocess_pixels (eye mask : Image) (i : Nat)
    (hlen : mask.length = eye.length) (hval : ∀ v ∈ eye, v ≤ 255)
    (hi : i < eye.length) :
    (preprocessInput (some mask) eye).getD i 0
        = (if mask.getD i 0 ≠ 0 then eye.getD i 0 else 255) ∧
      preprocessInput none eye = eye :=
  ⟨applyMaskStage_getD eye mask i hlen hval hi, rfl⟩

/-- Witness for `mask_preprocess_pixels` on a two-pixel image whose mask
excludes the first pixel and keeps the second. -/
theorem mask_preprocess_pixels_witness :
    ((([0, 255] : Image).length = ([100, 7] : Image).length ∧
        (∀ v ∈ ([100, 7] : Image), v ≤ 255) ∧ 0 < ([100, 7] : Image).length)) ∧
    ((preprocessInput (some [0, 255]) [100, 7]).getD 0 0
        = (if ([0, 255] : Image).getD 0 0 ≠ 0 then ([100, 7] : Image).getD 0 0 else 255) ∧
      preprocessInput none [100, 7] = [100, 7]) :=
  ⟨⟨by decide, by decide, by decide⟩,
    mask_preprocess_pixels [100, 7] [0, 255] 0 (by decide) (by decide) (by decide)⟩

end ITracker
